import Mathlib

/-!
Verification of the marketing layout wrapper
(src/trello-app/src/app/(marketing)/layout.tsx).

The component is a single presentational wrapper: it receives an opaque
renderable payload (the `children` prop) and returns a fixed two-level
element tree — a `div` with class "bg-slate-100 h-full" containing a
`main` with class "pt-40 pb-20 bg-slate-100" whose only slot holds the
payload unchanged.
-/

namespace JiraTutorial

/-- The `children` value: absent, a single node, or an ordered sequence of
nodes.  Node contents are opaque, drawn from an arbitrary type `ν`. -/
inductive RenderablePayload (ν : Type) where
  | absent
  | single (n : ν)
  | nodes (ns : List ν)
  deriving Repr

/-- The rendering tree the component returns: an element carries a tag name,
a class attribute string, and a list of children; a slot holds the supplied
payload. -/
inductive OutputTree (ν : Type) where
  | element (tag : String) (className : String) (children : List (OutputTree ν))
  | slot (p : RenderablePayload ν)

/-- The props interface of the component: a single `children` field and
nothing else (source lines 1-3, MarketingLayoutProps). -/
structure MarketingLayoutProps (ν : Type) where
  children : RenderablePayload ν

/-- Class attribute of the outer div, as written in the source (line 8). -/
def outerClassName : String := "bg-slate-100 h-full"

/-- Class attribute of the inner main, as written in the source (line 9). -/
def innerClassName : String := "pt-40 pb-20 bg-slate-100"

/-- The component itself (source lines 5-12): destructures `children` from
its props and returns the fixed div/main tree around it. -/
def MarketingLayout (props : MarketingLayoutProps ν) : OutputTree ν :=
  OutputTree.element "div" outerClassName
    [OutputTree.element "main" innerClassName
      [OutputTree.slot props.children]]

/-- Invoking the component on a bare payload. -/
def render (p : RenderablePayload ν) : OutputTree ν :=
  MarketingLayout ⟨p⟩

/-- Tag name of a tree node, when it is an element. -/
def OutputTree.tagOf : OutputTree ν → Option String
  | .element t _ _ => some t
  | .slot _ => none

/-- Class attribute of a tree node, when it is an element. -/
def OutputTree.classOf : OutputTree ν → Option String
  | .element _ c _ => some c
  | .slot _ => none

/-- Children of a tree node (a slot has none). -/
def OutputTree.childrenOf : OutputTree ν → List (OutputTree ν)
  | .element _ _ cs => cs
  | .slot _ => []

/-- Payload held by a tree node, when it is a slot. -/
def OutputTree.payloadOf : OutputTree ν → Option (RenderablePayload ν)
  | .slot p => some p
  | .element _ _ _ => none

/-- The inner content region of a rendered tree: the first child of the
outer container. -/
def innerRegion (p : RenderablePayload ν) : Option (OutputTree ν) :=
  (render p).childrenOf.head?

/-- The single slot of the inner region. -/
def innerSlot (p : RenderablePayload ν) : Option (OutputTree ν) :=
  (innerRegion p).bind fun i => i.childrenOf.head?

/-- The payload stored in the inner slot of a rendered tree. -/
def slotPayload (p : RenderablePayload ν) : Option (RenderablePayload ν) :=
  (innerSlot p).bind OutputTree.payloadOf

/-- The node list a payload stands for, in order (absent is the empty
sequence). -/
def RenderablePayload.nodeList : RenderablePayload ν → List ν
  | .absent => []
  | .single n => [n]
  | .nodes ns => ns

/-- Whether a payload is the absent payload. -/
def RenderablePayload.isAbsent : RenderablePayload ν → Bool
  | .absent => true
  | _ => false

/-- Splits a character stream into whitespace-separated tokens, carrying the
reversed characters of the token in progress. -/
def splitTokensAux : List Char → List Char → List String
  | [], acc => if acc.isEmpty then [] else [String.mk acc.reverse]
  | c :: rest, acc =>
      if c = ' ' then
        if acc.isEmpty then splitTokensAux rest []
        else String.mk acc.reverse :: splitTokensAux rest []
      else splitTokensAux rest (c :: acc)

/-- The individual presentation directives of a class attribute string:
its whitespace-separated tokens. -/
def classTokens (s : String) : List String :=
  splitTokensAux s.toList []

/-- The directive set attached to a tree node: the tokens of its class
attribute (a slot carries none). -/
def OutputTree.directives : OutputTree ν → List String
  | .element _ c _ => classTokens c
  | .slot _ => []

/-- Strips a leading character sequence, returning the remainder when it
matches. -/
def stripLeading : List Char → List Char → Option (List Char)
  | [], cs => some cs
  | _ :: _, [] => none
  | p :: ps, c :: cs => if p = c then stripLeading ps cs else none

/-- Reads a nonempty all-digit character list as a natural number. -/
def parseDigitsAux : List Char → Nat → Option Nat
  | [], acc => some acc
  | c :: cs, acc =>
      if 48 ≤ c.toNat ∧ c.toNat ≤ 57 then parseDigitsAux cs (acc * 10 + (c.toNat - 48))
      else none

/-- Reads a digit character list as a natural number; empty input is
rejected. -/
def parseDigits : List Char → Option Nat
  | [] => none
  | cs => parseDigitsAux cs 0

/-- The numeric value carried by the first directive that starts with the
given marker, e.g. the 40 of "pt-40" under marker "pt-". -/
def directiveValue (marker : String) : List String → Option Nat
  | [] => none
  | d :: rest =>
      match stripLeading marker.toList d.toList with
      | some tail => parseDigits tail
      | none => directiveValue marker rest

/-- The first directive that starts with the given marker, e.g. the
background directive under marker "bg-". -/
def directiveWith (marker : String) : List String → Option String
  | [] => none
  | d :: rest =>
      if (stripLeading marker.toList d.toList).isSome then some d
      else directiveWith marker rest

/-- An invocation of the component threaded through an explicit ambient
state `σ` (shared mutable state, storage, network).  The source body is a
single return of a literal tree and touches no such state, so the embedding
returns the tree and passes the state through. -/
def renderInState (σ : Type) (p : RenderablePayload ν) (s : σ) :
    OutputTree ν × σ :=
  (render p, s)

/-- An invocation of the component with a possible failure channel.  The
source has no throw and no failure branch, so the embedding always returns
`ok`. -/
def renderChecked (p : RenderablePayload ν) : Except String (OutputTree ν) :=
  Except.ok (render p)

/-- Whether a checked invocation succeeded. -/
def isOkB : Except String (OutputTree ν) → Bool
  | .ok _ => true
  | .error _ => false

/-- An output tree whose slot holds a reference (a store address) to the
payload rather than a copy of it. -/
inductive OutputTreeRef where
  | element (tag : String) (className : String) (children : List OutputTreeRef)
  | slotRef (addr : Nat)

/-- Children of a reference tree node. -/
def OutputTreeRef.childrenOf : OutputTreeRef → List OutputTreeRef
  | .element _ _ cs => cs
  | .slotRef _ => []

/-- The address held by a reference tree node, when it is a slot. -/
def OutputTreeRef.addrOf : OutputTreeRef → Option Nat
  | .slotRef a => some a
  | .element _ _ _ => none

/-- A heap of payload values addressed by location. -/
def Store (ν : Type) := Nat → RenderablePayload ν

/-- An invocation of the component in the heap model: the payload is passed
as a reference into a store, the slot of the result holds that same
reference, and the store comes back untouched — the source reads `children`
once and writes nothing. -/
def renderByRef (ν : Type) (addr : Nat) (s : Store ν) :
    OutputTreeRef × Store ν :=
  (OutputTreeRef.element "div" outerClassName
    [OutputTreeRef.element "main" innerClassName
      [OutputTreeRef.slotRef addr]], s)

/-- The address stored in the inner slot of a reference tree. -/
def refSlotAddr (t : OutputTreeRef) : Option Nat :=
  (t.childrenOf.head?).bind fun i =>
    (i.childrenOf.head?).bind OutputTreeRef.addrOf

/-- An ambient environment of configuration options, flags, and
environment-variable inputs available to the hosting application. -/
structure Env where
  options : List (String × String)
  flags : List String
  envVars : List (String × String)

/-- An invocation of the component as the hosting system performs it: the
environment is in scope, but the source destructures only `children` from
its props and reads nothing else, so the body ignores the environment. -/
def renderWithEnv (_ : Env) (props : MarketingLayoutProps ν) : OutputTree ν :=
  MarketingLayout props

/-- Directive set of the outer container of a rendered tree. -/
def outerDirectives (p : RenderablePayload ν) : List String :=
  (render p).directives

/-- Directive set of the inner content region of a rendered tree. -/
def innerDirectives (p : RenderablePayload ν) : List String :=
  ((innerRegion p).map OutputTree.directives).getD []

/-- C1: for every payload p, the rendered tree has exactly one outer
container whose only child is the inner content region, whose only child is
one slot holding p unchanged. -/
theorem render_structural_invariant (ν : Type) (p : RenderablePayload ν) :
    (render p).childrenOf.length = 1 ∧
    (innerRegion p).map (fun i => i.childrenOf.length) = some 1 ∧
    innerSlot p = some (OutputTree.slot p) ∧
    slotPayload p = some p :=
  ⟨rfl, rfl, rfl, rfl⟩

/-- C2: the directive sets of the outer container and of the inner content
region are the fixed constants background plus full height, resp. top
padding, bottom padding, background, with no other directives, and they do
not vary with the payload. -/
theorem render_directives_constant (ν : Type) (p q : RenderablePayload ν) :
    outerDirectives p = ["bg-slate-100", "h-full"] ∧
    innerDirectives p = ["pt-40", "pb-20", "bg-slate-100"] ∧
    outerDirectives p = outerDirectives q ∧
    innerDirectives p = innerDirectives q :=
  ⟨rfl, rfl, rfl, rfl⟩

/-- C3: rendering is pure and deterministic: through an explicit ambient
state the output does not depend on the state, the state is returned
unchanged, and the output equals the plain function of the input. -/
theorem render_pure (ν σ : Type) (p : RenderablePayload ν) (s t : σ) :
    (renderInState σ p s).1 = (renderInState σ p t).1 ∧
    (renderInState σ p s).2 = s ∧
    (renderInState σ p s).1 = render p :=
  ⟨rfl, rfl, rfl⟩

/-- C4: rendering is total: for every payload the checked invocation
returns ok with the rendered tree and never takes a failure branch. -/
theorem render_total (ν : Type) (p : RenderablePayload ν) :
    renderChecked p = Except.ok (render p) ∧
    isOkB (renderChecked p) = true :=
  ⟨rfl, rfl⟩

/-- C5: rendering the absent payload still produces the full two-level tree
with both wrapper nodes carrying their fixed class attributes and an empty
inner slot. -/
theorem render_absent_payload (ν : Type) :
    (render (RenderablePayload.absent : RenderablePayload ν)).childrenOf.length = 1 ∧
    (innerRegion (RenderablePayload.absent : RenderablePayload ν)).map
      (fun i => i.childrenOf.length) = some 1 ∧
    (slotPayload (RenderablePayload.absent : RenderablePayload ν)).map
      RenderablePayload.isAbsent = some true ∧
    (slotPayload (RenderablePayload.absent : RenderablePayload ν)).map
      RenderablePayload.nodeList = some [] ∧
    (render (RenderablePayload.absent : RenderablePayload ν)).classOf = some outerClassName ∧
    (innerRegion (RenderablePayload.absent : RenderablePayload ν)).bind
      OutputTree.classOf = some innerClassName :=
  ⟨rfl, rfl, rfl, rfl, rfl, rfl⟩

/-- C6: rendering a sequence of nodes places the whole sequence into the
single inner slot in its original order. -/
theorem render_preserves_sequence (ν : Type) (ns : List ν) (a b c : ν) :
    slotPayload (RenderablePayload.nodes ns) = some (RenderablePayload.nodes ns) ∧
    (slotPayload (RenderablePayload.nodes ns)).map RenderablePayload.nodeList = some ns ∧
    slotPayload (RenderablePayload.nodes [a, b, c]) =
      some (RenderablePayload.nodes [a, b, c]) :=
  ⟨rfl, rfl, rfl⟩

/-- C7: rendering never mutates its payload: in the heap model the store
returns unchanged, the payload at its address equals the pre-call snapshot,
and the inner slot holds the payload by its original reference. -/
theorem render_no_mutation (ν : Type) (addr : Nat) (s : Store ν) :
    (renderByRef ν addr s).2 = s ∧
    (renderByRef ν addr s).2 addr = s addr ∧
    refSlotAddr (renderByRef ν addr s).1 = some addr :=
  ⟨rfl, rfl, rfl⟩

/-- C8: in every rendered tree the inner top-padding directive value 40 is
strictly and substantially larger than the bottom-padding value 20, and
the inner background directive equals the outer background directive. -/
theorem render_padding_relation (ν : Type) (p : RenderablePayload ν) :
    directiveValue "pt-" (innerDirectives p) = some 40 ∧
    directiveValue "pb-" (innerDirectives p) = some 20 ∧
    (directiveValue "pt-" (innerDirectives p)).getD 0 >
      (directiveValue "pb-" (innerDirectives p)).getD 0 ∧
    (directiveValue "pt-" (innerDirectives p)).getD 0 ≥
      2 * (directiveValue "pb-" (innerDirectives p)).getD 0 ∧
    directiveWith "bg-" (innerDirectives p) = directiveWith "bg-" (outerDirectives p) ∧
    directiveWith "bg-" (outerDirectives p) = some "bg-slate-100" :=
  ⟨rfl, rfl, (by decide : (20 : Nat) < 40), (by decide : 2 * 20 ≤ (40 : Nat)), rfl, rfl⟩

/-- C9: the component recognizes only its single children prop: its output
is unchanged under any change of the ambient environment and depends only
on the children field of its props. -/
theorem render_sole_input (ν : Type) (e₁ e₂ : Env) (props : MarketingLayoutProps ν) :
    renderWithEnv e₁ props = renderWithEnv e₂ props ∧
    MarketingLayout props = render props.children ∧
    renderWithEnv e₁ props = MarketingLayout props :=
  ⟨rfl, rfl, rfl⟩

/-- C10: for every payload the outer container is a div element with class
attribute exactly "bg-slate-100 h-full" and the inner content region is a
main element with class attribute exactly "pt-40 pb-20 bg-slate-100". -/
theorem render_literal_tags (ν : Type) (p : RenderablePayload ν) :
    (render p).tagOf = some "div" ∧
    (render p).classOf = some "bg-slate-100 h-full" ∧
    (innerRegion p).bind OutputTree.tagOf = some "main" ∧
    (innerRegion p).bind OutputTree.classOf = some "pt-40 pb-20 bg-slate-100" :=
  ⟨rfl, rfl, rfl, rfl⟩

end JiraTutorial
